import Mathlib

/-!
Shallow embedding of the emotion-dialogue pipeline core
(src/config/commands.py, src/config/emotions.py, src/config/vocabulary.py,
src/core/context_analyzer.py, src/core/emotion_analyzer.py,
src/core/decision_maker.py).

Python floats are modelled as rationals; all decimal constants in the source
are exact decimal fractions, so this is faithful.  Python dicts that flow
through the pipeline are modelled as structures whose optional keys are
Option fields (`dict.get(k, d)` becomes `field.getD d`).  The tokenizer
(jieba) is an external collaborator; its output (word, pos) pairs are taken
as an input.  `random.choice` is modelled by an explicit choice argument so
theorems quantify over every possible draw.  Configuration (config.json) is
loaded once by each component; it is modelled as an `Option` parameter
(`none` models the failed-load fallback `self.config = None`).
-/

/-- Boolean test that `sub` is a prefix of `s`, on character lists.  Models
the inner step of Python substring containment. -/
def hasPrefixCL : List Char → List Char → Bool
  | _, [] => true
  | [], _ :: _ => false
  | a :: s, b :: t => a == b && hasPrefixCL s t

/-- Boolean test that `sub` occurs contiguously in `s`. -/
def hasSubCL : List Char → List Char → Bool
  | [], sub => sub.isEmpty
  | a :: s, sub => hasPrefixCL (a :: s) sub || hasSubCL s sub

/-- Python `sub in text` on strings (substring containment). -/
def strContains (text sub : String) : Bool :=
  hasSubCL text.toList sub.toList

/-- Lookup in a string-keyed association list; models Python `dict.get`. -/
def lookupStr {α : Type} (m : List (String × α)) (k : String) : Option α :=
  (m.find? (fun p => p.1 == k)).map Prod.snd

/-- Models `re.search(r'(m1|m2|...).*(f1|f2|...)', text)` on a character
list: some marker occurs, and some closer occurs at or after the end of
that marker occurrence. -/
def searchSeqCL (markers fins : List String) : List Char → Bool
  | [] => false
  | a :: s =>
    (markers.any (fun m =>
      hasPrefixCL (a :: s) m.toList &&
        fins.any (fun f => hasSubCL ((a :: s).drop m.toList.length) f.toList))) ||
    searchSeqCL markers fins s

/-- Models `re.search(r'(m1|..).*(f1|..)', text)` on strings. -/
def regexSearchThen (markers fins : List String) (text : String) : Bool :=
  searchSeqCL markers fins text.toList

/-- Models `re.search(r'p1|p2|...', text)`: some alternative occurs. -/
def regexSearchAny (pats : List String) (text : String) : Bool :=
  pats.any (fun p => strContains text p)

/-! ### src/config/commands.py -/

/-- CommandType enum. -/
inductive CommandType where
  | come | turn | left | right | run | stop | follow | back | forward | dance
deriving DecidableEq, BEq, Repr

/-- Enum `.value` strings of CommandType. -/
def commandValue : CommandType → String
  | .come => "过来"
  | .turn => "转身"
  | .left => "在你左边"
  | .right => "在你右边"
  | .run => "快跑"
  | .stop => "停下"
  | .follow => "跟着我"
  | .back => "后退"
  | .forward => "向前"
  | .dance => "跳舞"

/-- Iteration order of `for command_type in CommandType`. -/
def allCommands : List CommandType :=
  [.come, .turn, .left, .right, .run, .stop, .follow, .back, .forward, .dance]

/-- Entry of COMMAND_PARAMS. -/
structure CommandParams where
  action : String
  safety_check : Bool
  keywords : List String
  response_templates : List String

/-- COMMAND_PARAMS table. -/
def COMMAND_PARAMS : CommandType → CommandParams
  | .come => ⟨"move_to_target", true, ["过来", "来这里", "到这儿"],
      ["好的,我这就过来", "马上就到", "我来了"]⟩
  | .turn => ⟨"rotate", false, ["转身", "转过去", "转过来"],
      ["好的,我转身了", "转过去了", "已经转好了"]⟩
  | .left => ⟨"move_left", true, ["左边", "向左", "左面"],
      ["好的,向左移动", "往左边走", "向左边去"]⟩
  | .right => ⟨"move_right", true, ["右边", "向右", "右面"],
      ["好的,向右移动", "往右边走", "向右边去"]⟩
  | .run => ⟨"run", true, ["快跑", "跑起来", "加速"],
      ["好的,我开始跑", "我跑起来了", "加速中"]⟩
  | .stop => ⟨"stop", false, ["停下", "停止", "别动"],
      ["好的,我停下了", "已经停止了", "不动了"]⟩
  | .follow => ⟨"follow_target", true, ["跟着我", "跟我来", "跟上"],
      ["好的,我跟着你", "我跟你走", "跟上你了"]⟩
  | .back => ⟨"move_backward", true, ["后退", "往后", "向后"],
      ["好的,我后退", "向后移动", "往后走"]⟩
  | .forward => ⟨"move_forward", true, ["向前", "往前", "前进"],
      ["好的,我向前", "向前移动", "往前走"]⟩
  | .dance => ⟨"dance", false, ["跳舞", "跳一下", "跳起来"],
      ["好的,我跳舞", "看我的舞姿", "跳起来了"]⟩

/-- get_command_params. -/
def get_command_params (command_type : CommandType) : CommandParams :=
  COMMAND_PARAMS command_type

/-- get_command_by_keywords. -/
def get_command_by_keywords (text : String) : List CommandType :=
  allCommands.filter
    (fun c => (COMMAND_PARAMS c).keywords.any (fun k => strContains text k))

/-- needs_safety_check. -/
def needs_safety_check (command_type : CommandType) : Bool :=
  (COMMAND_PARAMS command_type).safety_check

/-! ### src/config/emotions.py -/

/-- EmotionType enum. -/
inductive EmotionType where
  | happy | sad | angry | surprised | scared | calm | excited | bored
  | friendly | shy
deriving DecidableEq, BEq, Repr

/-- Enum `.value` strings of EmotionType.  Note ANGRY is "愤怒". -/
def emotionValue : EmotionType → String
  | .happy => "高兴"
  | .sad => "难过"
  | .angry => "愤怒"
  | .surprised => "惊讶"
  | .scared => "害怕"
  | .calm => "平静"
  | .excited => "兴奋"
  | .bored => "无聊"
  | .friendly => "友善"
  | .shy => "害羞"

/-- Iteration order of `for emotion_type in EmotionType`. -/
def allEmotions : List EmotionType :=
  [.happy, .sad, .angry, .surprised, .scared, .calm, .excited, .bored,
   .friendly, .shy]

/-- Entry of EMOTION_PARAMS (the dict returned by get_emotion_params). -/
structure EmotionParams where
  speech_speed : ℚ
  volume : ℚ
  pitch : ℚ
  expression : String
  keywords : List String
deriving DecidableEq

/-- EMOTION_PARAMS table. -/
def EMOTION_PARAMS : EmotionType → EmotionParams
  | .happy => ⟨1.2, 1.1, 1.1, "smile", ["好", "喜欢", "棒", "开心"]⟩
  | .sad => ⟨0.8, 0.9, 0.9, "sad", ["不好", "难过", "伤心", "失望"]⟩
  | .angry => ⟨1.3, 1.2, 1.2, "angry", ["生气", "讨厌", "不要", "别"]⟩
  | .surprised => ⟨1.1, 1.1, 1.2, "surprised", ["哇", "真的吗", "竟然", "没想到"]⟩
  | .scared => ⟨1.2, 0.8, 1.1, "scared", ["害怕", "可怕", "危险", "小心"]⟩
  | .calm => ⟨1.0, 1.0, 1.0, "calm", ["好的", "明白", "知道", "平静"]⟩
  | .excited => ⟨1.3, 1.2, 1.2, "excited", ["太好了", "太棒了", "好激动", "期待"]⟩
  | .bored => ⟨0.9, 0.9, 0.9, "bored", ["无聊", "困", "乏", "懒"]⟩
  | .friendly => ⟨1.1, 1.0, 1.0, "friendly", ["朋友", "一起", "帮助", "谢谢"]⟩
  | .shy => ⟨0.9, 0.8, 0.9, "shy", ["害羞", "不好意思", "抱歉", "对不起"]⟩

/-- get_emotion_params. -/
def get_emotion_params (emotion_type : EmotionType) : EmotionParams :=
  EMOTION_PARAMS emotion_type

/-- get_emotion_by_keywords. -/
def get_emotion_by_keywords (text : String) : List EmotionType :=
  allEmotions.filter
    (fun e => (EMOTION_PARAMS e).keywords.any (fun k => strContains text k))

/-- Models `EmotionType(s)`: the emotion whose value is `s`, or `none`
when `s` is not a valid value (Python raises ValueError there). -/
def parseEmotionValue (s : String) : Option EmotionType :=
  allEmotions.find? (fun e => emotionValue e == s)

/-! ### src/config/vocabulary.py -/

/-- OBJECTS. -/
def OBJECTS : List String :=
  ["苹果", "书本", "椅子", "水杯", "手机", "电脑", "眼镜", "钥匙", "衣服", "鞋子"]

/-- QUESTIONS. -/
def QUESTIONS : List String :=
  ["是吗", "真的吗", "什么", "为什么", "怎么样", "在哪里", "谁", "多少", "可以吗", "好吗"]

/-- GREETINGS. -/
def GREETINGS : List String :=
  ["你好", "早上好", "下午好", "晚上好", "再见"]

/-- ATTITUDES. -/
def ATTITUDES : List String :=
  ["好的", "不好", "喜欢", "不喜欢", "可以", "不可以", "同意", "不同意", "明白", "不明白"]

/-- ADJECTIVES. -/
def ADJECTIVES : List String :=
  ["大", "小", "高", "低", "快", "慢", "热", "冷", "好", "坏", "多", "少", "远", "近", "新"]

/-- ALL_VOCABULARY: a Python set; modelled as the concatenated list (only
membership and the full collection are ever used downstream). -/
def ALL_VOCABULARY : List String :=
  OBJECTS ++ QUESTIONS ++ GREETINGS ++ ATTITUDES ++ ADJECTIVES

/-- is_valid_word. -/
def is_valid_word (word : String) : Bool :=
  ALL_VOCABULARY.contains word

/-! ### Configuration shapes (config.json, per the loader in
src/config/settings.py and the keys read by the core components). -/

/-- Safety section of config.json as read by the core
(`min_obstacle_distance`, `danger_keywords`, `restricted_areas`,
`max_speed`, `required_checks`). -/
structure SafetyCfg where
  min_obstacle_distance : ℚ
  danger_keywords : List String
  restricted_areas : List String
  max_speed : ℚ
  required_checks : List String

/-- Emotion section of config.json as read by EmotionAnalyzer.  The ranges
are optional keys (`dict.get` with defaults in the source); `pitch_range`
is part of the configuration shape but is never read by `_adjust_params`. -/
structure EmotionCfg where
  triggers : List (String × List String)
  speech_speed_range : Option (ℚ × ℚ) := none
  volume_range : Option (ℚ × ℚ) := none
  pitch_range : Option (ℚ × ℚ) := none

/-- Configuration read by DecisionMaker: the safety section plus
`config['vocabulary']['responses']`. -/
structure DMCfg where
  safety : SafetyCfg
  responses : List (String × List String)

/-- Danger keyword set held by DecisionMaker (`self.danger_keywords`;
empty when the config failed to load). -/
def danger_keywords_of (cfg : Option DMCfg) : List String :=
  match cfg with
  | some c => c.safety.danger_keywords
  | none => []

/-- Restricted area set held by DecisionMaker (`self.restricted_areas`). -/
def restricted_areas_of (cfg : Option DMCfg) : List String :=
  match cfg with
  | some c => c.safety.restricted_areas
  | none => []

/-! ### Scene snapshots and analysis contexts -/

/-- Obstacle dict; `distance` key optional (`obstacle.get('distance',
float('inf'))` treats a missing distance as infinitely far). -/
structure Obstacle where
  distance : Option ℚ := none

/-- Scene snapshot dict.  Every key is optional.  `temperature` holds the
parsed numeric value; `none` covers both an absent key (whose default
"25°C" parses to 25, which triggers nothing) and an unparsable string
(swallowed by `except: pass`): in all these cases no rule fires. -/
structure Scene where
  obstacles : Option (List Obstacle) := none
  has_obstacles : Option Bool := none
  area : Option String := none
  speed : Option ℚ := none
  obstacle_distance : Option ℚ := none
  temperature : Option ℚ := none
  is_safe : Option Bool := none
  lighting : Option String := none
  safety_status : Option String := none

/-- Entry of the scene_emotion_impact dict. -/
structure Impact where
  type : String
  degree : ℚ

/-- AnalysisContext dict produced by ContextAnalyzer.analyze.
`possible_commands` holds the enum members (the source stores their
`.value` strings and re-parses them with `CommandType(command)`, which
cannot fail for strings produced this way); `possible_emotions` holds raw
strings because EmotionAnalyzer re-parses them with `EmotionType(e)`,
which can fail.  `scene`, `has_obstacles`, `is_safe` are keys only added
when a scene is supplied. -/
structure AnalysisContext where
  original_text : String
  words : List String
  pos_tags : List String
  keywords : List String
  possible_commands : List CommandType
  possible_emotions : List String
  context_type : String
  context_confidence : ℚ
  tone_analysis : List (String × ℚ) := []
  scene : Option Scene := none
  has_obstacles : Option Bool := none
  is_safe : Option Bool := none
  scene_emotion_impact : List (String × Impact) := []

/-! ### src/core/context_analyzer.py -/

/-- ContextAnalyzer._extract_keywords: tokens that are in the core
vocabulary (a Python set comprehension; `eraseDups` models set
collapse — downstream uses only membership tests). -/
def extract_keywords (words : List String) : List String :=
  (words.filter is_valid_word).eraseDups

/-- Question-word set local to _analyze_context_type. -/
def question_words : List String :=
  ["是吗", "真的吗", "什么", "为什么", "怎么样"]

/-- Greeting-word set local to _analyze_context_type. -/
def greeting_words : List String :=
  ["你好", "早上好", "下午好", "晚上好", "再见"]

/-- Python `max(items, key=score)` over an association list: the first
entry with the maximal score wins (later entries replace only when
strictly greater). -/
def pickMax (init : String × ℚ) (rest : List (String × ℚ)) : String × ℚ :=
  rest.foldl (fun best p => if p.2 > best.2 then p else best) init

/-- ContextAnalyzer._analyze_context_type.  The score dict is built in
insertion order command, question, greeting, chat, so ties resolve in
that priority order. -/
def analyze_context_type (text : String) (_words : List String)
    (pos_tags : List String) (keywords : List String)
    (possible_commands : List CommandType) : String × ℚ :=
  let commandScore : ℚ :=
    (if !possible_commands.isEmpty then 0.6 else 0) +
    (pos_tags.countP (fun p => p == "v") : ℚ) * 0.1 +
    (if regexSearchThen ["请", "麻烦", "帮忙"] ["好吗", "可以吗"] text
      then 0.3 else 0)
  let questionScore : ℚ :=
    (pos_tags.countP (fun p => p == "y") : ℚ) * 0.1 +
    (if strContains text "？" || strContains text "?" then 0.4 else 0) +
    (if keywords.any (fun k => question_words.contains k) then 0.4 else 0)
  let greetingScore : ℚ :=
    if keywords.any (fun k => greeting_words.contains k) then 0.6 else 0
  let chatScore : ℚ := 0.1
  pickMax ("command", commandScore)
    [("question", questionScore), ("greeting", greetingScore),
     ("chat", chatScore)]

/-- Tone word sets (`self.tone_words`). -/
def tone_words : List (String × List String) :=
  [("祈使", ["请", "麻烦", "帮忙", "希望", "建议"]),
   ("疑问", ["吗", "呢", "吧", "啊", "么"]),
   ("感叹", ["啊", "哇", "呀", "哦", "诶"]),
   ("强调", ["一定", "必须", "肯定", "绝对", "确实"]),
   ("缓和", ["可能", "也许", "大概", "差不多", "稍微"])]

/-- ContextAnalyzer._analyze_tone. -/
def analyze_tone (words : List String) (pos_tags : List String) :
    List (String × ℚ) :=
  let hit : String → ℚ := fun tone =>
    ((lookupStr tone_words tone).getD []).foldl
      (fun acc w => acc + 0.3 * (words.countP (fun x => x == w) : ℚ)) 0
  let yCount : ℚ := (pos_tags.countP (fun p => p == "y") : ℚ)
  let text := String.join words
  let s1 : ℚ := hit "祈使" +
    (if regexSearchThen ["请"] ["吧"] text then 0.3 else 0)
  let s2 : ℚ := hit "疑问" + yCount * 0.1
  let s3 : ℚ := hit "感叹" + yCount * 0.1
  let s4 : ℚ := hit "强调" +
    (if regexSearchAny ["一定", "必须", "肯定"] text then 0.3 else 0)
  let s5 : ℚ := hit "缓和" +
    (if regexSearchAny ["可能", "也许", "大概"] text then 0.3 else 0)
  let raw : List (String × ℚ) :=
    [("祈使", s1), ("疑问", s2), ("感叹", s3), ("强调", s4), ("缓和", s5)]
  let maxScore : ℚ := (raw.map Prod.snd).foldl max 0
  let normalized := if maxScore > 0
    then raw.map (fun p => (p.1, p.2 / maxScore)) else raw
  normalized.filter (fun p => 0.3 ≤ p.2)

/-- ContextAnalyzer._check_safety.  With no matched commands or no
obstacles (or no loaded config: the `KeyError` is swallowed and the code
returns True) the scene is reported safe without looking at distances. -/
def check_safety (cfg : Option SafetyCfg) (commands : List CommandType)
    (obstacles : List Obstacle) : Bool :=
  if commands.isEmpty || obstacles.isEmpty then true
  else
    match cfg with
    | none => true
    | some c =>
      obstacles.all (fun ob =>
        match ob.distance with
        | none => true
        | some d => decide (c.min_obstacle_distance ≤ d))

/-- ContextAnalyzer._analyze_scene_emotion_impact. -/
def analyze_scene_emotion_impact (scene : Scene) : List (String × Impact) :=
  (match scene.temperature with
   | some t =>
     if t > 30 then [("temperature", ⟨"不适", min ((t - 30) / 10) 1⟩)]
     else if t < 10 then [("temperature", ⟨"不适", min ((10 - t) / 10) 1⟩)]
     else []
   | none => []) ++
  (match scene.lighting.getD "明亮" with
   | "黑暗" => [("lighting", ⟨"不安", 0.7⟩)]
   | "昏暗" => [("lighting", ⟨"警惕", 0.4⟩)]
   | _ => []) ++
  (if scene.safety_status.getD "安全" ≠ "安全"
   then [("safety", ⟨"危险", 0.8⟩)] else [])

/-- ContextAnalyzer._combine_scene_info. -/
def combine_scene_info (cfg : Option SafetyCfg) (context : AnalysisContext)
    (scene_info : Option Scene) : AnalysisContext :=
  match scene_info with
  | none => context
  | some sc =>
    let context1 := { context with
      scene := some sc,
      scene_emotion_impact := analyze_scene_emotion_impact sc }
    match sc.obstacles with
    | some obs =>
      { context1 with
        has_obstacles := some (!obs.isEmpty),
        is_safe := some (check_safety cfg context.possible_commands obs) }
    | none =>
      { context1 with has_obstacles := some false, is_safe := some true }

/-- ContextAnalyzer.analyze.  The tokenizer is external, so the (word,
pos) pairs are an input; the outer try/except fallback is only reachable
through tokenizer failures, which are outside this embedding. -/
def context_analyze (cfg : Option SafetyCfg) (text : String)
    (tokens : List (String × String)) (scene_info : Option Scene) :
    AnalysisContext :=
  let words := tokens.map Prod.fst
  let pos_tags := tokens.map Prod.snd
  let keywords := extract_keywords words
  let possible_commands := get_command_by_keywords text
  let possible_emotions := (get_emotion_by_keywords text).map emotionValue
  let tc := analyze_context_type text words pos_tags keywords
    possible_commands
  combine_scene_info cfg
    { original_text := text
      words := words
      pos_tags := pos_tags
      keywords := keywords
      possible_commands := possible_commands
      possible_emotions := possible_emotions
      context_type := tc.1
      context_confidence := tc.2
      tone_analysis := analyze_tone words pos_tags }
    scene_info

/-! ### src/core/emotion_analyzer.py -/

/-- Session state owned by EmotionAnalyzer (`self.current_emotion`,
`self.emotion_history`). -/
structure EAState where
  current_emotion : EmotionType
  emotion_history : List EmotionType
deriving DecidableEq

/-- Initial EmotionAnalyzer state (default emotion CALM, empty history). -/
def initEAState : EAState :=
  { current_emotion := .calm, emotion_history := [] }

/-- history_size field (`self.history_size = 5`). -/
def history_size : Nat := 5

/-- EmotionAnalyzer._calculate_keyword_score.  The trigger set comes from
`config['emotion']['rules']['triggers'].get(emotion.value, [])`; the score
is |triggers ∩ keywords| / |triggers| over sets (`eraseDups` models set
collapse of the trigger list; intersection is counted on the trigger
side, which is the set semantics of the source). -/
def calculate_keyword_score (cfg : Option EmotionCfg) (emotion : EmotionType)
    (keywords : List String) : ℚ :=
  match cfg with
  | none => 0
  | some c =>
    let ek := ((lookupStr c.triggers (emotionValue emotion)).getD []).eraseDups
    if ek.isEmpty then 0
    else ((ek.countP (fun w => keywords.contains w)) : ℚ) / (ek.length : ℚ)

/-- EmotionAnalyzer._get_context_type_scores, as the score a given emotion
receives (emotions absent from the dict score 0 in the combination). -/
def get_context_type_scores (context_type : String) (e : EmotionType) : ℚ :=
  if context_type == "greeting" then
    match e with | .friendly => 0.8 | .happy => 0.6 | _ => 0
  else if context_type == "command" then
    match e with | .excited => 0.7 | .friendly => 0.5 | _ => 0
  else if context_type == "question" then
    match e with | .surprised => 0.6 | .friendly => 0.4 | _ => 0
  else
    match e with | .calm => 0.5 | .friendly => 0.3 | _ => 0

/-- EmotionAnalyzer._calculate_history_scores, as the score a given
emotion receives: (count in history / history length) x 0.5. -/
def calculate_history_scores (history : List EmotionType) (e : EmotionType) :
    ℚ :=
  if history.isEmpty then 0
  else ((history.count e : ℚ) / (history.length : ℚ)) * 0.5

/-- EmotionAnalyzer._calculate_scene_scores, as the score a given emotion
receives. -/
def calculate_scene_scores (scene : Scene) (e : EmotionType) : ℚ :=
  let unsafe_ := !(scene.is_safe.getD true)
  let obst := scene.has_obstacles.getD false
  match e with
  | .scared => (if unsafe_ then 0.8 else 0) + (if obst then 0.4 else 0)
  | .surprised => if unsafe_ then 0.6 else 0
  | .angry =>
    match scene.temperature with
    | some t => if t > 30 then 0.3 else 0
    | none => 0
  | .sad =>
    match scene.temperature with
    | some t => if ¬(t > 30) ∧ t < 10 then 0.3 else 0
    | none => 0
  | _ => 0

/-- Combined emotion score (the four additive sources of
_recognize_emotion; the score dict holds every EmotionType because the
keyword loop runs over the whole enum). -/
def emotion_score (cfg : Option EmotionCfg) (st : EAState)
    (context : AnalysisContext) (e : EmotionType) : ℚ :=
  calculate_keyword_score cfg e context.keywords +
  get_context_type_scores context.context_type e +
  calculate_history_scores st.emotion_history e +
  calculate_scene_scores (context.scene.getD {}) e

/-- Maximum of a list of rationals with Python max semantics over the
(always nonempty) score dict values. -/
def listMaxQ (l : List ℚ) : ℚ :=
  l.foldl max (l.headD 0)

/-- EmotionAnalyzer._recognize_emotion.  `none` models the ValueError
raised by `EmotionType(e)` on an invalid possible_emotions entry; this is
the only failing step.  `pick` models `random.choice` over the tied best
emotions; it is consulted only when there is no keyword-matched
candidate.  The `else` branch of `if emotion_scores` in the source is
dead (the dict always holds all ten emotions) and is not modelled. -/
def recognize_emotion (cfg : Option EmotionCfg) (st : EAState)
    (context : AnalysisContext)
    (pick : List EmotionType → EmotionType) :
    Option (EmotionType × ℚ) :=
  match context.possible_emotions.mapM parseEmotionValue with
  | none => none
  | some possible_emotions =>
    let scores := allEmotions.map (fun e => (e, emotion_score cfg st context e))
    let max_score := listMaxQ (scores.map Prod.snd)
    let best_emotions :=
      (scores.filter (fun p => decide (p.2 = max_score))).map Prod.fst
    let selected := match possible_emotions with
      | e :: _ => e
      | [] => pick best_emotions
    let confidence := max_score / ((scores.length : ℚ) * 4)
    some (selected, min 1 (max 0 confidence))

/-- EmotionAnalyzer._update_emotion_state: set current, append to history,
evict the oldest entry when the capacity is exceeded. -/
def update_emotion_state (st : EAState) (new_emotion : EmotionType) : EAState :=
  let h := st.emotion_history ++ [new_emotion]
  { current_emotion := new_emotion,
    emotion_history := if h.length > history_size then h.drop 1 else h }

/-- EmotionAnalyzer._adjust_params.  With no loaded config the params are
returned untouched.  Otherwise the three numeric params are blended
toward the neutral value 1.0 by confidence, speed/volume are tweaked for
unsafe contexts, speed for command contexts, and then speech_speed and
volume - but not pitch - are clamped into their configured ranges. -/
def adjust_params (cfg : Option EmotionCfg) (params : EmotionParams)
    (context : AnalysisContext) (confidence : ℚ) : EmotionParams :=
  match cfg with
  | none => params
  | some c =>
    let blend := fun (v : ℚ) => v * confidence + 1 * (1 - confidence)
    let p1 := { params with
      speech_speed := blend params.speech_speed,
      volume := blend params.volume,
      pitch := blend params.pitch }
    let p2 := if !(context.is_safe.getD true)
      then { p1 with speech_speed := p1.speech_speed * 1.2,
                     volume := p1.volume * 0.8 }
      else p1
    let p3 := if context.context_type == "command"
      then { p2 with speech_speed := p2.speech_speed * 1.1 }
      else p2
    let sr := c.speech_speed_range.getD (0.8, 1.3)
    let vr := c.volume_range.getD (0.8, 1.2)
    { p3 with
      speech_speed := max sr.1 (min sr.2 p3.speech_speed),
      volume := max vr.1 (min vr.2 p3.volume) }

/-- Result dict of EmotionAnalyzer.analyze. -/
structure EmotionResult where
  emotion_type : String
  params : EmotionParams
  history : List String
  confidence : ℚ
deriving DecidableEq

/-- EmotionAnalyzer.analyze.  On an internal exception (the ValueError in
_recognize_emotion) the except branch returns CALM with CALM base params
and confidence 0.5, leaving the session state untouched; otherwise the
state is updated and the adjusted params are returned together with the
post-update history. -/
def emotion_analyze (cfg : Option EmotionCfg) (st : EAState)
    (context : AnalysisContext)
    (pick : List EmotionType → EmotionType) :
    EmotionResult × EAState :=
  match recognize_emotion cfg st context pick with
  | none =>
    ({ emotion_type := emotionValue .calm,
       params := get_emotion_params .calm,
       history := st.emotion_history.map emotionValue,
       confidence := 0.5 }, st)
  | some (emotion_type, confidence) =>
    let st1 := update_emotion_state st emotion_type
    let adjusted := adjust_params cfg (get_emotion_params emotion_type)
      context confidence
    ({ emotion_type := emotionValue emotion_type,
       params := adjusted,
       history := st1.emotion_history.map emotionValue,
       confidence := confidence }, st1)

/-! ### src/core/decision_maker.py -/

/-- max_history_size field (`self.max_history_size = 10`). -/
def max_history_size : Nat := 10

/-- Result dict of _check_command_safety (the SafetyAssessment). -/
structure SafetyResult where
  is_safe : Bool
  reason : Option String
  score : ℚ

/-- Decision dict returned by DecisionMaker. -/
structure DecisionResult where
  should_execute : Bool
  reject_reason : Option String := none
  action_type : Option String := none
  response_template : Option String := none
  vocabulary_constraints : List String := []
  safety_score : Option ℚ := none

/-- DecisionMaker._pass_safety_check. -/
def pass_safety_check (c : DMCfg) (check_type : String) (scene : Scene) :
    Bool :=
  if check_type == "distance" then
    match scene.obstacle_distance with
    | none => true
    | some d => decide (c.safety.min_obstacle_distance ≤ d)
  else if check_type == "speed" then
    decide ((scene.speed.getD 0) ≤ c.safety.max_speed)
  else if check_type == "obstacles" then
    !(scene.has_obstacles.getD false)
  else if check_type == "area" then
    !(c.safety.restricted_areas.contains (scene.area.getD ""))
  else true

/-- Safety score of step 5 of _check_command_safety: passed required
checks over total required checks. -/
def safety_score_of (c : DMCfg) (scene : Scene) : ℚ :=
  ((c.safety.required_checks.countP
    (fun ch => pass_safety_check c ch scene)) : ℚ) /
    (c.safety.required_checks.length : ℚ)

/-- DecisionMaker._check_command_safety.  Commands configured with
`safety_check = False` skip every check (including the danger-keyword
scan).  A missing config or an empty required_checks list ends in the
except branch (TypeError / ZeroDivisionError) which fails closed. -/
def check_command_safety (cfg : Option DMCfg) (command : CommandType)
    (context : AnalysisContext) : SafetyResult :=
  if !needs_safety_check command then ⟨true, none, 1⟩
  else if !(context.is_safe.getD true) then ⟨false, some "当前环境不安全", 0⟩
  else
    let danger_words := (danger_keywords_of cfg).filter
      (fun w => strContains context.original_text w)
    if !danger_words.isEmpty then
      ⟨false, some ("包含危险词汇: " ++ String.intercalate ", " danger_words), 0⟩
    else
      let scene := context.scene.getD {}
      if scene.has_obstacles.getD false && !(scene.obstacles.getD []).isEmpty
      then ⟨false, some "前方有障碍物", 0⟩
      else if (restricted_areas_of cfg).contains (scene.area.getD "") then
        ⟨false, some ("当前处于限制区域: " ++ scene.area.getD ""), 0⟩
      else if (match scene.speed, cfg with
               | some v, some c => decide (v > c.safety.max_speed)
               | _, _ => false) then
        ⟨false, some "速度超过限制", 0⟩
      else
        match cfg with
        | none => ⟨false, some "无法完成安全检查", 0⟩
        | some c =>
          if c.safety.required_checks.isEmpty then
            ⟨false, some "无法完成安全检查", 0⟩
          else
            ⟨true, none, safety_score_of c scene⟩

/-- DecisionMaker._check_command_history: allow unless the command already
occurs twice among the last three history entries. -/
def check_command_history (hist : List CommandType) (command : CommandType) :
    Bool :=
  ((hist.drop (hist.length - 3)).count command) < 2

/-- DecisionMaker._update_command_history: append, evicting the oldest
entry when the capacity is exceeded. -/
def update_command_history (hist : List CommandType) (command : CommandType) :
    List CommandType :=
  let h := hist ++ [command]
  if h.length > max_history_size then h.drop 1 else h

/-- DecisionMaker._generate_reject_response: the reason is embedded in one
of five templates; `choice` models `random.choice`. -/
def generate_reject_response (command reason : String) (choice : Nat) :
    String :=
  match choice % 5 with
  | 0 => "对不起," ++ reason
  | 1 => "抱歉," ++ reason
  | 2 => "我不能" ++ command ++ "," ++ reason
  | 3 => "现在不能" ++ command ++ ",因为" ++ reason
  | _ => "执行" ++ command ++ "可能有风险," ++ reason

/-- DecisionMaker._select_response_template.  _is_template_suitable is
`return True`, so the suitable list equals the template list and
`random.choice` draws from it; `choice` models the draw. -/
def select_response_template (templates : List String) (choice : Nat) :
    String :=
  templates.getD (choice % templates.length) ""

/-- DecisionMaker._process_command for one candidate, returning the
result dict together with the (possibly updated) command history.
`rchoice`/`tchoice` model the random draws for the rejection template and
the response template.  The emotional gate compares against the literal
strings of the source; note "生气" is not the value of any EmotionType. -/
def process_command (cfg : Option DMCfg) (command : CommandType)
    (context : AnalysisContext) (emotion_type : String)
    (hist : List CommandType) (rchoice tchoice : Nat) :
    DecisionResult × List CommandType :=
  let safety_result := check_command_safety cfg command context
  if !safety_result.is_safe then
    ({ should_execute := false,
       reject_reason := some (generate_reject_response
         (commandValue command) (safety_result.reason.getD "") rchoice),
       action_type := none,
       vocabulary_constraints := ALL_VOCABULARY,
       safety_score := some safety_result.score }, hist)
  else if emotion_type == "害怕" || emotion_type == "生气" then
    ({ should_execute := false,
       reject_reason := some (generate_reject_response
         (commandValue command) "我现在的心情不太好" rchoice),
       action_type := none,
       vocabulary_constraints := ALL_VOCABULARY,
       safety_score := some 0.5 }, hist)
  else if !check_command_history hist command then
    ({ should_execute := false,
       reject_reason := some (generate_reject_response
         (commandValue command) "这个动作最近做得太频繁了" rchoice),
       action_type := none,
       vocabulary_constraints := ALL_VOCABULARY,
       safety_score := some 0.5 }, hist)
  else
    let command_params := get_command_params command
    ({ should_execute := true,
       action_type := some command_params.action,
       response_template := some (select_response_template
         command_params.response_templates tchoice),
       vocabulary_constraints := ALL_VOCABULARY,
       safety_score := some safety_result.score },
     update_command_history hist command)

/-- Loop of make_decision over all candidates: each iteration sees the
history as mutated by the previous ones.  `rnd i` supplies the two random
draws of the i-th iteration. -/
def process_commands (cfg : Option DMCfg) (context : AnalysisContext)
    (emotion_type : String) (rnd : Nat → Nat × Nat) :
    List CommandType → Nat → List CommandType →
    List DecisionResult × List CommandType
  | [], _, hist => ([], hist)
  | c :: cs, i, hist =>
    let pr := process_command cfg c context emotion_type hist
      (rnd i).1 (rnd i).2
    let rest := process_commands cfg context emotion_type rnd cs (i + 1) pr.2
    (pr.1 :: rest.1, rest.2)

/-- DecisionMaker._select_best_command_result: prefer executable results
(the first one with the strictly highest safety score, Python `max`
keeping the earliest among ties); otherwise the first result. -/
def select_best_command_result (results : List DecisionResult) :
    DecisionResult :=
  match results with
  | [] =>
    { should_execute := false, reject_reason := some "没有可用的命令",
      action_type := none, vocabulary_constraints := ALL_VOCABULARY }
  | r :: rs =>
    match (r :: rs).filter (fun x => x.should_execute) with
    | [] => r
    | e :: es =>
      es.foldl (fun best x =>
        if (x.safety_score.getD 0) > (best.safety_score.getD 0) then x
        else best) e

/-- DecisionMaker._get_vocabulary_constraints. -/
def get_vocabulary_constraints (cfg : Option DMCfg)
    (response_type : String) : List String :=
  match cfg with
  | none => ALL_VOCABULARY
  | some c =>
    match lookupStr c.responses response_type with
    | some v => v
    | none => ALL_VOCABULARY

/-- DecisionMaker._generate_chat_decision (the Conversational decision:
no action, should_execute is True in the source dict). -/
def generate_chat_decision (cfg : Option DMCfg)
    (context : AnalysisContext) : DecisionResult :=
  let response_type :=
    if context.context_type == "greeting" then "greeting"
    else if context.context_type == "question" then "question"
    else "chat"
  { should_execute := true,
    action_type := none,
    vocabulary_constraints := get_vocabulary_constraints cfg response_type }

/-- DecisionMaker.make_decision, returning the decision dict and the new
command history.  Only `emotion['emotion_type']` is consulted by the
decision path, so the emotion argument is that string. -/
def make_decision (cfg : Option DMCfg) (context : AnalysisContext)
    (emotion_type : String) (hist : List CommandType)
    (rnd : Nat → Nat × Nat) : DecisionResult × List CommandType :=
  if context.context_type == "command" &&
      !context.possible_commands.isEmpty then
    let pr := process_commands cfg context emotion_type rnd
      context.possible_commands 0 hist
    (select_best_command_result pr.1, pr.2)
  else
    (generate_chat_decision cfg context, hist)

/-! ### Session composition (ContextAnalyzer, EmotionAnalyzer and
DecisionMaker share one conversation session; EmotionAnalyzer owns
EAState, DecisionMaker owns the command history). -/

/-- Per-session mutable state. -/
structure Session where
  emotion : EAState
  command_history : List CommandType

/-- Fresh session (both analyzers as constructed). -/
def initSession : Session :=
  { emotion := initEAState, command_history := [] }

/-- Request input: an analysis context plus the random sources consumed
by the two stateful stages. -/
structure StepInput where
  context : AnalysisContext
  pick : List EmotionType → EmotionType
  rnd : Nat → Nat × Nat

/-- One pipeline turn: EmotionAnalyzer.analyze then
DecisionMaker.make_decision on the resulting emotion. -/
def session_step (ecfg : Option EmotionCfg) (dcfg : Option DMCfg)
    (s : Session) (inp : StepInput) : Session :=
  let er := emotion_analyze ecfg s.emotion inp.context inp.pick
  let dr := make_decision dcfg inp.context er.1.emotion_type
    s.command_history inp.rnd
  { emotion := er.2, command_history := dr.2 }

/-- A whole conversation: fold the pipeline over a list of requests. -/
def session_run (ecfg : Option EmotionCfg) (dcfg : Option DMCfg)
    (init : Session) (inputs : List StepInput) : Session :=
  inputs.foldl (session_step ecfg dcfg) init

/-! ### Concrete fixtures used by witnesses and counterexamples.
The safety section follows the configuration contract (settings.py
defaults for `min_obstacle_distance` and `danger_keywords`; the check
names are those understood by `_pass_safety_check`). -/

/-- Concrete safety configuration. -/
def safetyCfgDefault : SafetyCfg :=
  { min_obstacle_distance := 1,
    danger_keywords := ["撞", "跳", "摔", "打", "踢", "伤害", "危险", "破坏", "损坏"],
    restricted_areas := [],
    max_speed := 2,
    required_checks := ["distance", "speed", "obstacles", "area"] }

/-- Concrete DecisionMaker configuration. -/
def dmCfgDefault : DMCfg :=
  { safety := safetyCfgDefault, responses := [] }

/-- Minimal analysis context fixture. -/
def ctxOf (text : String) (context_type : String)
    (cmds : List CommandType) : AnalysisContext :=
  { original_text := text, words := [], pos_tags := [], keywords := [],
    possible_commands := cmds, possible_emotions := [],
    context_type := context_type, context_confidence := 0.5 }

/-- Constant random source for concrete runs. -/
def rnd0 : Nat → Nat × Nat := fun _ => (0, 0)

/-! ### Shared helper lemmas -/

/-- The command history returned by _process_command is the input history
when any gate rejects, and the appended history exactly when the result
is executable. -/
theorem process_command_snd (cfg : Option DMCfg) (c : CommandType)
    (ctx : AnalysisContext) (et : String) (hist : List CommandType)
    (rc tc : Nat) :
    (process_command cfg c ctx et hist rc tc).2 =
      if (process_command cfg c ctx et hist rc tc).1.should_execute
      then update_command_history hist c else hist := by
  cases hs : (check_command_safety cfg c ctx).is_safe
  · simp [process_command, hs]
  · by_cases he : (et == "害怕" || et == "生气") = true
    · simp [process_command, hs, he]
    · by_cases hh : check_command_history hist c = true
      · simp [process_command, hs, he, hh]
      · simp [process_command, hs, he, hh]

/-- Every rejection template embeds the reason as a suffix. -/
theorem generate_reject_ends (command reason : String) (choice : Nat) :
    ∃ p, generate_reject_response command reason choice = p ++ reason := by
  have h5 : choice % 5 = 0 ∨ choice % 5 = 1 ∨ choice % 5 = 2 ∨
      choice % 5 = 3 ∨ choice % 5 = 4 := by omega
  rcases h5 with h | h | h | h | h
  · exact ⟨"对不起,", by simp [generate_reject_response, h]⟩
  · exact ⟨"抱歉,", by simp [generate_reject_response, h]⟩
  · exact ⟨"我不能" ++ command ++ ",",
      by simp [generate_reject_response, h, String.append_assoc]⟩
  · exact ⟨"现在不能" ++ command ++ ",因为",
      by simp [generate_reject_response, h, String.append_assoc]⟩
  · exact ⟨"执行" ++ command ++ "可能有风险,",
      by simp [generate_reject_response, h, String.append_assoc]⟩

/-- A command that requires a safety check is assessed unsafe whenever the
text contains a configured danger keyword (the context-safety branch may
fire first, but the assessment is negative either way). -/
theorem check_command_safety_danger (cfg : Option DMCfg) (c : CommandType)
    (ctx : AnalysisContext) (dk : String)
    (hn : needs_safety_check c = true)
    (hdk : dk ∈ danger_keywords_of cfg)
    (hc : strContains ctx.original_text dk = true) :
    (check_command_safety cfg c ctx).is_safe = false := by
  have hmem : dk ∈ (danger_keywords_of cfg).filter
      (fun w => strContains ctx.original_text w) :=
    List.mem_filter.mpr ⟨hdk, hc⟩
  have hb : ((danger_keywords_of cfg).filter
      (fun w => strContains ctx.original_text w)).isEmpty = false := by
    rcases hf : (danger_keywords_of cfg).filter
        (fun w => strContains ctx.original_text w) with _ | ⟨a, l⟩
    · rw [hf] at hmem
      exact absurd hmem (List.not_mem_nil dk)
    · rfl
  cases h2 : ctx.is_safe.getD true
  · simp [check_command_safety, hn, h2]
  · simp [check_command_safety, hn, h2, hb]

/-- A negatively assessed candidate is rejected and leaves the history
untouched. -/
theorem process_command_of_unsafe (cfg : Option DMCfg) (c : CommandType)
    (ctx : AnalysisContext) (et : String) (hist : List CommandType)
    (rc tc : Nat)
    (h : (check_command_safety cfg c ctx).is_safe = false) :
    (process_command cfg c ctx et hist rc tc).1.should_execute = false ∧
      (process_command cfg c ctx et hist rc tc).2 = hist := by
  constructor <;> simp [process_command, h]

/-- The Python `max` fold over executable results stays executable. -/
theorem foldl_best_exec (es : List DecisionResult) :
    ∀ e : DecisionResult, e.should_execute = true →
      (∀ x ∈ es, x.should_execute = true) →
      (es.foldl (fun best x =>
        if (x.safety_score.getD 0) > (best.safety_score.getD 0) then x
        else best) e).should_execute = true := by
  induction es with
  | nil => intro e he _; exact he
  | cons a l ih =>
    intro e he hall
    simp only [List.foldl_cons]
    by_cases hc : (a.safety_score.getD 0) > (e.safety_score.getD 0)
    · rw [if_pos hc]
      exact ih a (hall a (List.mem_cons_self a l))
        (fun x hx => hall x (List.mem_cons_of_mem a hx))
    · rw [if_neg hc]
      exact ih e he (fun x hx => hall x (List.mem_cons_of_mem a hx))

/-- When every candidate result is a rejection, _select_best_command_result
returns the first result (which is a rejection). -/
theorem select_best_all_rejected (results : List DecisionResult)
    (hne : results ≠ [])
    (hall : ∀ r ∈ results, r.should_execute = false) :
    (select_best_command_result results).should_execute = false := by
  rcases results with _ | ⟨r, rs⟩
  · exact absurd rfl hne
  · have hf : (r :: rs).filter (fun x => x.should_execute) = [] := by
      rw [List.filter_eq_nil_iff]
      intro a ha
      simp [hall a ha]
    simp only [select_best_command_result, hf]
    exact hall r (List.mem_cons_self r rs)

/-- When the executable filter is nonempty, the selected best result is
executable. -/
theorem select_best_of_exec (results : List DecisionResult)
    (e : DecisionResult) (es : List DecisionResult)
    (hf : results.filter (fun x => x.should_execute) = e :: es) :
    (select_best_command_result results).should_execute = true := by
  rcases results with _ | ⟨r, rs⟩
  · simp at hf
  · simp only [select_best_command_result, hf]
    have hmem : ∀ x ∈ e :: es, x.should_execute = true := by
      intro x hx
      have : x ∈ (r :: rs).filter (fun y => y.should_execute) := by
        rw [hf]; exact hx
      exact (List.mem_filter.mp this).2
    exact foldl_best_exec es e (hmem e (List.mem_cons_self e es))
      (fun x hx => hmem x (List.mem_cons_of_mem e hx))

/-- Commands actually committed while evaluating a candidate list: those
whose paired result is executable. -/
def executed_commands (cands : List CommandType)
    (results : List DecisionResult) : List CommandType :=
  ((cands.zip results).filter (fun p => p.2.should_execute)).map Prod.fst

/-- The candidate loop mutates the command history exactly by appending
(with FIFO eviction) each candidate whose evaluation committed. -/
theorem process_commands_hist (cfg : Option DMCfg) (ctx : AnalysisContext)
    (et : String) (rnd : Nat → Nat × Nat) :
    ∀ (cands : List CommandType) (i : Nat) (hist : List CommandType),
      (process_commands cfg ctx et rnd cands i hist).2 =
        List.foldl update_command_history hist
          (executed_commands cands
            (process_commands cfg ctx et rnd cands i hist).1) := by
  intro cands
  induction cands with
  | nil => intro i hist; simp [process_commands, executed_commands]
  | cons c cs ih =>
    intro i hist
    simp only [process_commands]
    cases hb : (process_command cfg c ctx et hist (rnd i).1 (rnd i).2).1.should_execute
    · have h2 : (process_command cfg c ctx et hist (rnd i).1 (rnd i).2).2 = hist := by
        rw [process_command_snd, hb]
        simp
      rw [h2]
      have hex : executed_commands (c :: cs)
          ((process_command cfg c ctx et hist (rnd i).1 (rnd i).2).1 ::
            (process_commands cfg ctx et rnd cs (i + 1) hist).1) =
          executed_commands cs
            (process_commands cfg ctx et rnd cs (i + 1) hist).1 := by
        simp [executed_commands, hb]
      rw [hex]
      exact ih (i + 1) hist
    · have h2 : (process_command cfg c ctx et hist (rnd i).1 (rnd i).2).2 =
          update_command_history hist c := by
        rw [process_command_snd, hb]
        simp
      rw [h2]
      have hex : executed_commands (c :: cs)
          ((process_command cfg c ctx et hist (rnd i).1 (rnd i).2).1 ::
            (process_commands cfg ctx et rnd cs (i + 1)
              (update_command_history hist c)).1) =
          c :: executed_commands cs
            (process_commands cfg ctx et rnd cs (i + 1)
              (update_command_history hist c)).1 := by
        simp [executed_commands, hb]
      rw [hex]
      simp only [List.foldl_cons]
      exact ih (i + 1) (update_command_history hist c)

/-- Results produced by the candidate loop, position by position. -/
theorem process_commands_rejected (cfg : Option DMCfg)
    (ctx : AnalysisContext) (et : String) (rnd : Nat → Nat × Nat)
    (hdangerAll : ∀ c ∈ ctx.possible_commands,
      (check_command_safety cfg c ctx).is_safe = false) :
    ∀ (cands : List CommandType) (i : Nat) (hist : List CommandType),
      (∀ c ∈ cands, c ∈ ctx.possible_commands) →
      (process_commands cfg ctx et rnd cands i hist).2 = hist ∧
        ∀ r ∈ (process_commands cfg ctx et rnd cands i hist).1,
          r.should_execute = false := by
  intro cands
  induction cands with
  | nil =>
    intro i hist _
    exact ⟨rfl, by simp [process_commands]⟩
  | cons c cs ih =>
    intro i hist hsub
    have hc := hdangerAll c (hsub c (List.mem_cons_self c cs))
    have hpc := process_command_of_unsafe cfg c ctx et hist
      (rnd i).1 (rnd i).2 hc
    have ihx := ih (i + 1) hist
      (fun x hx => hsub x (List.mem_cons_of_mem c hx))
    constructor
    · simp only [process_commands, hpc.2]
      exact ihx.1
    · intro r hr
      simp only [process_commands, hpc.2] at hr
      rcases List.mem_cons.mp hr with h | h
      · rw [h]; exact hpc.1
      · exact ihx.2 r h

/-- A candidate-list cons always yields at least one result. -/
theorem process_commands_ne_nil (cfg : Option DMCfg) (ctx : AnalysisContext)
    (et : String) (rnd : Nat → Nat × Nat) (c : CommandType)
    (cs : List CommandType) (i : Nat) (hist : List CommandType) :
    (process_commands cfg ctx et rnd (c :: cs) i hist).1 ≠ [] := by
  simp [process_commands]

/-! ### Claim C1 -/

/-- Claim C1, counterexample: the text "跳舞" contains the configured
danger keyword "跳", the intent is command with candidate DANCE, yet the
decision is executable - DANCE is configured with safety_check = False,
so _check_command_safety returns before the danger-keyword scan. -/
theorem danger_text_dance_command_executes :
    strContains (ctxOf "跳舞" "command" [CommandType.dance]).original_text
      "跳" = true ∧
    "跳" ∈ danger_keywords_of (some dmCfgDefault) ∧
    (ctxOf "跳舞" "command" [CommandType.dance]).context_type = "command" ∧
    (ctxOf "跳舞" "command" [CommandType.dance]).possible_commands ≠ [] ∧
    (make_decision (some dmCfgDefault)
      (ctxOf "跳舞" "command" [CommandType.dance]) "平静" [] rnd0).1.should_execute
      = true := by
  refine ⟨by decide, by decide, rfl, by decide, by decide⟩

/-- Claim C1 (amended): for a command-type context with a nonempty
candidate set, if the text contains a configured danger keyword and
additionally every candidate command requires a safety check, the
decision is a rejection and the command history is untouched - regardless
of scene safety. -/
theorem danger_keyword_rejects_safety_checked_commands
    (cfg : Option DMCfg) (ctx : AnalysisContext) (et : String)
    (hist : List CommandType) (rnd : Nat → Nat × Nat) (dk : String)
    (hdk : dk ∈ danger_keywords_of cfg)
    (hc : strContains ctx.original_text dk = true)
    (hct : ctx.context_type = "command")
    (hpc : ctx.possible_commands ≠ [])
    (hall : ∀ c ∈ ctx.possible_commands, needs_safety_check c = true) :
    (make_decision cfg ctx et hist rnd).1.should_execute = false ∧
      (make_decision cfg ctx et hist rnd).2 = hist := by
  rcases hpcs : ctx.possible_commands with _ | ⟨c, cs⟩
  · exact absurd hpcs hpc
  · have hdangerAll : ∀ x ∈ ctx.possible_commands,
        (check_command_safety cfg x ctx).is_safe = false :=
      fun x hxm => check_command_safety_danger cfg x ctx dk (hall x hxm) hdk hc
    have hrej := process_commands_rejected cfg ctx et rnd hdangerAll
      ctx.possible_commands 0 hist (fun x h => h)
    have hne : (process_commands cfg ctx et rnd
        ctx.possible_commands 0 hist).1 ≠ [] := by
      rw [hpcs]
      exact process_commands_ne_nil cfg ctx et rnd c cs 0 hist
    have hcond : (ctx.context_type == "command" &&
        !ctx.possible_commands.isEmpty) = true := by
      rw [hct, hpcs]
      rfl
    constructor
    · simp only [make_decision, hcond, if_true]
      exact select_best_all_rejected _ hne hrej.2
    · simp only [make_decision, hcond, if_true]
      exact hrej.1

/-- Claim C1 witness: a safety-checked command (COME) in a text carrying
the danger keyword "撞" is rejected. -/
theorem danger_keyword_rejects_safety_checked_commands_witness :
    "撞" ∈ danger_keywords_of (some dmCfgDefault) ∧
    strContains (ctxOf "撞过来" "command" [CommandType.come]).original_text
      "撞" = true ∧
    (make_decision (some dmCfgDefault)
      (ctxOf "撞过来" "command" [CommandType.come]) "平静" [] rnd0).1.should_execute
      = false :=
  ⟨by decide, by decide,
   (danger_keyword_rejects_safety_checked_commands (some dmCfgDefault)
     (ctxOf "撞过来" "command" [CommandType.come]) "平静" [] rnd0 "撞"
     (by decide) (by decide) rfl (by decide)
     (by
       intro c hc
       simp only [ctxOf, List.mem_singleton] at hc
       subst hc
       decide)).1⟩

/-! ### Claim C3 -/

/-- Claim C3, failing input for the code bug: the emotional gate tests
membership in the literal list ['害怕', '生气'], but EmotionAnalyzer emits
EmotionType values and ANGRY.value is "愤怒", so an angry emotion slips
through the gate: the safe COME command is executed and committed to the
history, while the scared value "害怕" is gated as intended. -/
theorem angry_emotion_passes_emotional_gate :
    emotionValue EmotionType.angry = "愤怒" ∧
    (process_command (some dmCfgDefault) CommandType.come
      (ctxOf "过来" "command" [CommandType.come]) "愤怒" [] 0 0).1.should_execute
      = true ∧
    (process_command (some dmCfgDefault) CommandType.come
      (ctxOf "过来" "command" [CommandType.come]) "愤怒" [] 0 0).2
      = [CommandType.come] ∧
    (process_command (some dmCfgDefault) CommandType.come
      (ctxOf "过来" "command" [CommandType.come]) "害怕" [] 0 0).1.should_execute
      = false := by
  refine ⟨rfl, by decide, by decide, by decide⟩

/-! ### Claim C4 -/

/-- Context whose possible_emotions entry is not a valid EmotionType
value, making `EmotionType(e)` raise inside _recognize_emotion. -/
def ctxBadEmotion : AnalysisContext :=
  { (ctxOf "测试" "chat" []) with possible_emotions := ["不存在"] }

/-- Session state whose current emotion is HAPPY. -/
def stHappy : EAState :=
  { current_emotion := .happy, emotion_history := [.happy] }

/-- Claim C4, counterexample: on the exception path the result carries
the default CALM, not the session's previous current emotion (HAPPY). -/
theorem analyze_failure_returns_calm_not_previous :
    (emotion_analyze none stHappy ctxBadEmotion
      (fun _ => .calm)).1.emotion_type = "平静" ∧
    emotionValue stHappy.current_emotion = "高兴" ∧
    ("平静" : String) ≠ "高兴" := by
  refine ⟨by decide, rfl, by decide⟩

/-- Claim C4 (amended): when scoring hits the internal exception (an
invalid possible_emotions entry), analyze returns the default CALM
emotion, CALM base parameters, confidence 0.5 and the existing history,
and leaves the session state unmodified. -/
theorem analyze_failure_returns_default_calm_and_preserves_state
    (cfg : Option EmotionCfg) (st : EAState) (ctx : AnalysisContext)
    (pick : List EmotionType → EmotionType)
    (h : ctx.possible_emotions.mapM parseEmotionValue = none) :
    emotion_analyze cfg st ctx pick =
      ({ emotion_type := "平静", params := get_emotion_params .calm,
         history := st.emotion_history.map emotionValue,
         confidence := 0.5 }, st) := by
  unfold emotion_analyze recognize_emotion
  rw [h]
  rfl

/-- Claim C4 witness: concrete failing input with a non-CALM session. -/
theorem analyze_failure_default_calm_witness :
    (ctxBadEmotion.possible_emotions.mapM parseEmotionValue = none) ∧
    emotion_analyze none
      { current_emotion := .sad, emotion_history := [] }
      ctxBadEmotion (fun _ => .calm) =
      ({ emotion_type := "平静", params := get_emotion_params .calm,
         history := [], confidence := 0.5 },
       { current_emotion := .sad, emotion_history := [] }) :=
  ⟨by decide, by
    have h := analyze_failure_returns_default_calm_and_preserves_state none
      { current_emotion := .sad, emotion_history := [] }
      ctxBadEmotion (fun _ => .calm) (by decide)
    simpa using h⟩

/-! ### Claim C10 -/

/-- Claim C10: with a nonempty keyword-matched candidate emotion list,
the recognition step returns the first candidate, and its output does not
depend on the random tie-break source at all. -/
theorem keyword_candidate_overrides_randomness
    (cfg : Option EmotionCfg) (st : EAState) (ctx : AnalysisContext)
    (pick1 pick2 : List EmotionType → EmotionType)
    (e : EmotionType) (es : List EmotionType)
    (h : ctx.possible_emotions.mapM parseEmotionValue = some (e :: es)) :
    recognize_emotion cfg st ctx pick1 = recognize_emotion cfg st ctx pick2 ∧
      ∃ conf, recognize_emotion cfg st ctx pick1 = some (e, conf) := by
  unfold recognize_emotion
  rw [h]
  exact ⟨rfl, ⟨_, rfl⟩⟩

/-- Context with the keyword-matched candidate emotion "高兴". -/
def ctxHappyKeyword : AnalysisContext :=
  { (ctxOf "开心" "chat" []) with possible_emotions := ["高兴"] }

/-- Claim C10 witness: two different random sources give the same result,
namely the first keyword candidate. -/
theorem keyword_candidate_overrides_randomness_witness :
    (ctxHappyKeyword.possible_emotions.mapM parseEmotionValue =
      some [EmotionType.happy]) ∧
    recognize_emotion none initEAState ctxHappyKeyword
        (fun l => l.headD .calm) =
      recognize_emotion none initEAState ctxHappyKeyword (fun _ => .sad) ∧
    ∃ conf, recognize_emotion none initEAState ctxHappyKeyword
        (fun l => l.headD .calm) = some (EmotionType.happy, conf) :=
  ⟨by decide,
   (keyword_candidate_overrides_randomness none initEAState ctxHappyKeyword
     (fun l => l.headD .calm) (fun _ => .sad) EmotionType.happy []
     (by decide)).1,
   (keyword_candidate_overrides_randomness none initEAState ctxHappyKeyword
     (fun l => l.headD .calm) (fun _ => .sad) EmotionType.happy []
     (by decide)).2⟩

/-! ### Claim C6 -/

/-- Emotion history stays within capacity across updates. -/
theorem update_emotion_state_length (st : EAState) (e : EmotionType)
    (h : st.emotion_history.length ≤ history_size) :
    (update_emotion_state st e).emotion_history.length ≤ history_size := by
  simp only [update_emotion_state]
  split <;> rename_i hc <;>
    simp only [List.length_drop, List.length_append, List.length_singleton]
      at hc ⊢ <;>
    omega

/-- Command history stays within capacity across updates. -/
theorem update_command_history_length (hist : List CommandType)
    (c : CommandType) (h : hist.length ≤ max_history_size) :
    (update_command_history hist c).length ≤ max_history_size := by
  simp only [update_command_history]
  split <;> rename_i hc <;>
    simp only [List.length_drop, List.length_append, List.length_singleton]
      at hc ⊢ <;>
    omega

/-- The candidate loop preserves the command-history capacity bound. -/
theorem process_commands_hist_length (cfg : Option DMCfg)
    (ctx : AnalysisContext) (et : String) (rnd : Nat → Nat × Nat) :
    ∀ (cands : List CommandType) (i : Nat) (hist : List CommandType),
      hist.length ≤ max_history_size →
      ((process_commands cfg ctx et rnd cands i hist).2).length ≤
        max_history_size := by
  intro cands
  induction cands with
  | nil => intro i hist h; exact h
  | cons c cs ih =>
    intro i hist h
    simp only [process_commands]
    apply ih
    rw [process_command_snd]
    split
    · exact update_command_history_length hist c h
    · exact h

/-- make_decision preserves the command-history capacity bound. -/
theorem make_decision_hist_length (cfg : Option DMCfg)
    (ctx : AnalysisContext) (et : String) (hist : List CommandType)
    (rnd : Nat → Nat × Nat) (h : hist.length ≤ max_history_size) :
    ((make_decision cfg ctx et hist rnd).2).length ≤ max_history_size := by
  unfold make_decision
  split
  · exact process_commands_hist_length cfg ctx et rnd
      ctx.possible_commands 0 hist h
  · exact h

/-- emotion_analyze preserves the emotion-history capacity bound. -/
theorem emotion_analyze_state_length (cfg : Option EmotionCfg)
    (st : EAState) (ctx : AnalysisContext)
    (pick : List EmotionType → EmotionType)
    (h : st.emotion_history.length ≤ history_size) :
    ((emotion_analyze cfg st ctx pick).2).emotion_history.length ≤
      history_size := by
  unfold emotion_analyze
  rcases hrec : recognize_emotion cfg st ctx pick with _ | ⟨e, conf⟩
  · exact h
  · exact update_emotion_state_length st e h

/-- Claim C6: starting from a fresh session, after any number of pipeline
turns the emotion history never exceeds history_size (5) and the command
history never exceeds max_history_size (10); at full capacity the update
operations evict the oldest element (FIFO). -/
theorem histories_bounded_and_fifo :
    (∀ (ecfg : Option EmotionCfg) (dcfg : Option DMCfg)
        (inputs : List StepInput),
      (session_run ecfg dcfg initSession inputs).emotion.emotion_history.length
          ≤ history_size ∧
        (session_run ecfg dcfg initSession inputs).command_history.length ≤
          max_history_size) ∧
    (∀ (st : EAState) (e : EmotionType),
      st.emotion_history.length = history_size →
      (update_emotion_state st e).emotion_history =
        st.emotion_history.drop 1 ++ [e]) ∧
    (∀ (hist : List CommandType) (c : CommandType),
      hist.length = max_history_size →
      update_command_history hist c = hist.drop 1 ++ [c]) := by
  refine ⟨?_, ?_, ?_⟩
  · intro ecfg dcfg inputs
    have main : ∀ (l : List StepInput) (s : Session),
        s.emotion.emotion_history.length ≤ history_size →
        s.command_history.length ≤ max_history_size →
        (session_run ecfg dcfg s l).emotion.emotion_history.length ≤
            history_size ∧
          (session_run ecfg dcfg s l).command_history.length ≤
            max_history_size := by
      intro l
      induction l with
      | nil => intro s h1 h2; exact ⟨h1, h2⟩
      | cons a t ih =>
        intro s h1 h2
        have hs1 := emotion_analyze_state_length ecfg s.emotion a.context
          a.pick h1
        have hs2 := make_decision_hist_length dcfg a.context
          (emotion_analyze ecfg s.emotion a.context a.pick).1.emotion_type
          s.command_history a.rnd h2
        exact ih (session_step ecfg dcfg s a) hs1 hs2
    exact main inputs initSession (by decide) (by decide)
  · intro st e hlen
    have hc : (st.emotion_history ++ [e]).length > history_size := by
      simp [hlen]
    have hone : 1 ≤ st.emotion_history.length := by
      rw [hlen]; decide
    simp only [update_emotion_state, if_pos hc]
    exact List.drop_append_of_le_length hone
  · intro hist c hlen
    have hc : (hist ++ [c]).length > max_history_size := by
      simp [hlen]
    have hone : 1 ≤ hist.length := by
      rw [hlen]; decide
    simp only [update_command_history, if_pos hc]
    exact List.drop_append_of_le_length hone

/-- Emotion state at full history capacity. -/
def stFull : EAState :=
  { current_emotion := .calm,
    emotion_history := [.calm, .happy, .sad, .angry, .scared] }

/-- Command history at full capacity. -/
def histFull : List CommandType :=
  [.come, .turn, .left, .right, .run, .stop, .follow, .back, .forward, .dance]

/-- Claim C6 witness: both FIFO eviction laws at full concrete
histories. -/
theorem histories_bounded_and_fifo_witness :
    stFull.emotion_history.length = history_size ∧
    (update_emotion_state stFull .bored).emotion_history =
      stFull.emotion_history.drop 1 ++ [EmotionType.bored] ∧
    histFull.length = max_history_size ∧
    update_command_history histFull .come =
      histFull.drop 1 ++ [CommandType.come] :=
  ⟨by decide,
   histories_bounded_and_fifo.2.1 stFull .bored (by decide),
   by decide,
   histories_bounded_and_fifo.2.2 histFull .come (by decide)⟩

/-! ### Claim C7 -/

/-- Context fixture for the 快跑 scenario. -/
def ctxRun : AnalysisContext := ctxOf "快跑" "command" [.run]

/-- First 快跑 decision from an empty history. -/
def dRun1 : DecisionResult × List CommandType :=
  make_decision (some dmCfgDefault) ctxRun "平静" [] rnd0

/-- Second consecutive 快跑 decision. -/
def dRun2 : DecisionResult × List CommandType :=
  make_decision (some dmCfgDefault) ctxRun "平静" dRun1.2 rnd0

/-- Third consecutive 快跑 decision. -/
def dRun3 : DecisionResult × List CommandType :=
  make_decision (some dmCfgDefault) ctxRun "平静" dRun2.2 rnd0

/-- Claim C7: a command occurring at least twice among the last three
history entries is rejected on its next attempt (leaving the history
unchanged), with a reason embedding "太频繁" whenever the safety and
emotional gates let the attempt reach the repetition gate; and the
concrete scenario: 快跑 three times in a row is Executable, Executable,
then Rejected with a too-frequently reason. -/
theorem repeated_command_rejected :
    (∀ (cfg : Option DMCfg) (ctx : AnalysisContext) (et : String)
        (hist : List CommandType) (rc tc : Nat) (c : CommandType),
      2 ≤ (hist.drop (hist.length - 3)).count c →
      (process_command cfg c ctx et hist rc tc).1.should_execute = false ∧
        (process_command cfg c ctx et hist rc tc).2 = hist ∧
        ((check_command_safety cfg c ctx).is_safe = true →
          (et == "害怕" || et == "生气") = false →
          ∃ p q, (process_command cfg c ctx et hist rc tc).1.reject_reason =
            some (p ++ "太频繁" ++ q))) ∧
    (dRun1.1.should_execute = true ∧ dRun1.2 = [CommandType.run] ∧
      dRun2.1.should_execute = true ∧
      dRun2.2 = [CommandType.run, CommandType.run] ∧
      dRun3.1.should_execute = false ∧
      dRun3.2 = [CommandType.run, CommandType.run] ∧
      dRun3.1.reject_reason =
        some ("对不起,这个动作最近做得" ++ "太频繁" ++ "了")) := by
  constructor
  · intro cfg ctx et hist rc tc c h
    have hch : check_command_history hist c = false := by
      unfold check_command_history
      simp only [decide_eq_false_iff_not]
      omega
    cases hs : (check_command_safety cfg c ctx).is_safe
    · have hpc := process_command_of_unsafe cfg c ctx et hist rc tc hs
      refine ⟨hpc.1, hpc.2, ?_⟩
      intro hsT _
      simp at hsT
    · by_cases he : (et == "害怕" || et == "生气") = true
      · refine ⟨by simp [process_command, hs, he], by simp [process_command, hs, he], ?_⟩
        intro _ heF
        rw [he] at heF
        simp at heF
      · have heF : (et == "害怕" || et == "生气") = false := by
          revert he
          cases (et == "害怕" || et == "生气") <;> simp
        refine ⟨by simp [process_command, hs, heF, hch],
          by simp [process_command, hs, heF, hch], ?_⟩
        intro _ _
        obtain ⟨pre, hpre⟩ := generate_reject_ends (commandValue c)
          "这个动作最近做得太频繁了" rc
        refine ⟨pre ++ "这个动作最近做得", "了", ?_⟩
        have hrr : (process_command cfg c ctx et hist rc tc).1.reject_reason =
            some (generate_reject_response (commandValue c)
              "这个动作最近做得太频繁了" rc) := by
          simp [process_command, hs, heF, hch]
        rw [hrr, hpre]
        have hsplit : ("这个动作最近做得太频繁了" : String) =
            "这个动作最近做得" ++ "太频繁" ++ "了" := by decide
        rw [hsplit]
        simp [String.append_assoc]
  · refine ⟨by decide, by decide, by decide, by decide, by decide, by decide,
      by decide⟩

/-- Claim C7 witness: the general repetition law applied at a concrete
doubled history. -/
theorem repeated_command_rejected_witness :
    2 ≤ (([CommandType.run, CommandType.run] : List CommandType).drop
      ([CommandType.run, CommandType.run].length - 3)).count CommandType.run ∧
    (process_command (some dmCfgDefault) CommandType.run ctxRun "平静"
      [CommandType.run, CommandType.run] 0 0).1.should_execute = false :=
  ⟨by decide,
   (repeated_command_rejected.1 (some dmCfgDefault) ctxRun "平静"
     [CommandType.run, CommandType.run] 0 0 CommandType.run (by decide)).1⟩

/-! ### Claim C8 -/

/-- Pass predicate of the per-obstacle distance test in _check_safety
(a missing distance defaults to infinity and passes). -/
def obstacle_passes (m : ℚ) (ob : Obstacle) : Bool :=
  match ob.distance with
  | none => true
  | some d => decide (m ≤ d)

/-- Scene fixture with a single obstacle closer than the configured
minimum distance. -/
def sceneCloseObstacle : Scene :=
  { obstacles := some [{ distance := some (3/10) }] }

/-- Claim C8, counterexample: with a supplied scene whose only obstacle
is at distance 0.3 < 1.0 but with no matched command candidates, the
produced context still reports is_safe = true - the safety flag is not
independent of the matched candidates. -/
theorem is_safe_true_with_close_obstacle_no_commands :
    (ctxOf "你好" "chat" []).possible_commands = [] ∧
    sceneCloseObstacle.obstacles = some [{ distance := some (3/10) }] ∧
    ((3:ℚ)/10) < safetyCfgDefault.min_obstacle_distance ∧
    (combine_scene_info (some safetyCfgDefault) (ctxOf "你好" "chat" [])
      (some sceneCloseObstacle)).has_obstacles = some true ∧
    (combine_scene_info (some safetyCfgDefault) (ctxOf "你好" "chat" [])
      (some sceneCloseObstacle)).is_safe = some true := by
  refine ⟨rfl, rfl, ?_, by decide, by decide⟩
  norm_num [safetyCfgDefault]

/-- Claim C8 (amended): when a scene with an obstacles key is supplied,
the produced context's has_obstacles equals the non-emptiness of the
obstacle list, and is_safe is true if and only if the candidate command
set is empty, or the obstacle list is empty, or no obstacle's distance is
below the configured minimum - the distance criterion is consulted only
when some command candidate was matched. -/
theorem scene_flags_characterization (cfgS : SafetyCfg)
    (ctx : AnalysisContext) (sc : Scene) (obs : List Obstacle)
    (hobs : sc.obstacles = some obs) :
    (combine_scene_info (some cfgS) ctx (some sc)).has_obstacles =
      some (!obs.isEmpty) ∧
    ((combine_scene_info (some cfgS) ctx (some sc)).is_safe = some true ↔
      (ctx.possible_commands = [] ∨ obs = [] ∨
        ∀ ob ∈ obs, obstacle_passes cfgS.min_obstacle_distance ob = true)) := by
  constructor
  · simp only [combine_scene_info, hobs]
  · simp only [combine_scene_info, hobs]
    rw [Option.some_inj]
    unfold check_safety
    by_cases h1 : ctx.possible_commands.isEmpty = true
    · have h1e : ctx.possible_commands = [] := by
        rwa [List.isEmpty_iff] at h1
      simp [h1, h1e]
    · by_cases h2 : obs.isEmpty = true
      · have h2e : obs = [] := by
          rwa [List.isEmpty_iff] at h2
        simp [h1, h2, h2e]
      · have h1e : ¬(ctx.possible_commands = []) := by
          rw [← List.isEmpty_iff]
          exact h1
        have h2e : ¬(obs = []) := by
          rw [← List.isEmpty_iff]
          exact h2
        simp only [h1, h2, Bool.or_self, if_false, Bool.false_eq_true,
          List.all_eq_true, obstacle_passes]
        simp [h1e, h2e, obstacle_passes]

/-- Scene fixture with one far obstacle. -/
def sceneFarObstacle : Scene :=
  { obstacles := some [{ distance := some 5 }] }

/-- Claim C8 witness: the characterization applied to a command-bearing
context and a far obstacle. -/
theorem scene_flags_characterization_witness :
    sceneFarObstacle.obstacles = some [{ distance := some 5 }] ∧
    ((combine_scene_info (some safetyCfgDefault)
        (ctxOf "过来" "command" [CommandType.come])
        (some sceneFarObstacle)).has_obstacles = some (!([({ distance := some 5 } : Obstacle)]).isEmpty) ∧
      ((combine_scene_info (some safetyCfgDefault)
          (ctxOf "过来" "command" [CommandType.come])
          (some sceneFarObstacle)).is_safe = some true ↔
        ((ctxOf "过来" "command" [CommandType.come]).possible_commands = [] ∨
          ([({ distance := some 5 } : Obstacle)]) = [] ∨
          ∀ ob ∈ [({ distance := some 5 } : Obstacle)],
            obstacle_passes safetyCfgDefault.min_obstacle_distance ob = true))) :=
  ⟨rfl,
   scene_flags_characterization safetyCfgDefault
     (ctxOf "过来" "command" [CommandType.come]) sceneFarObstacle
     [{ distance := some 5 }] rfl⟩

/-! ### Claim C9 -/

/-- Context matching both COME and FOLLOW. -/
def ctxComeFollow : AnalysisContext :=
  ctxOf "过来跟着我" "command" [.come, .follow]

/-- Claim C9, counterexample: with two candidates that both pass every
gate, a single make_decision call returning one Executable decision
appends two entries to the command history (one per executable
candidate), not exactly one. -/
theorem two_executable_candidates_append_two_entries :
    (make_decision (some dmCfgDefault) ctxComeFollow "平静" [] rnd0).1.should_execute
      = true ∧
    (make_decision (some dmCfgDefault) ctxComeFollow "平静" [] rnd0).2 =
      [CommandType.come, CommandType.follow] := by
  have hse1 : (process_command (some dmCfgDefault) .come ctxComeFollow "平静"
      [] 0 0).1.should_execute = true := by decide
  have hse2 : (process_command (some dmCfgDefault) .follow ctxComeFollow "平静"
      [CommandType.come] 0 0).1.should_execute = true := by decide
  have hh1 : (process_command (some dmCfgDefault) .come ctxComeFollow "平静"
      [] 0 0).2 = [CommandType.come] := by decide
  have hh2 : (process_command (some dmCfgDefault) .follow ctxComeFollow "平静"
      [CommandType.come] 0 0).2 = [CommandType.come, CommandType.follow] := by
    decide
  have hpcs : process_commands (some dmCfgDefault) ctxComeFollow "平静" rnd0
      [CommandType.come, CommandType.follow] 0 [] =
      ([(process_command (some dmCfgDefault) .come ctxComeFollow "平静"
          [] 0 0).1,
        (process_command (some dmCfgDefault) .follow ctxComeFollow "平静"
          [CommandType.come] 0 0).1],
       [CommandType.come, CommandType.follow]) := by
    simp only [process_commands, rnd0, hh1, hh2]
  have hcmd : make_decision (some dmCfgDefault) ctxComeFollow "平静" [] rnd0 =
      (select_best_command_result
        (process_commands (some dmCfgDefault) ctxComeFollow "平静" rnd0
          [CommandType.come, CommandType.follow] 0 []).1,
       (process_commands (some dmCfgDefault) ctxComeFollow "平静" rnd0
          [CommandType.come, CommandType.follow] 0 []).2) := by
    rfl
  constructor
  · rw [hcmd]
    have hfilter : ((process_commands (some dmCfgDefault) ctxComeFollow "平静"
        rnd0 [CommandType.come, CommandType.follow] 0 []).1).filter
          (fun x => x.should_execute) =
        (process_command (some dmCfgDefault) .come ctxComeFollow "平静"
          [] 0 0).1 ::
        [(process_command (some dmCfgDefault) .follow ctxComeFollow "平静"
          [CommandType.come] 0 0).1] := by
      rw [hpcs]
      simp [List.filter, hse1, hse2]
    exact select_best_of_exec _ _ _ hfilter
  · rw [hcmd, hpcs]

/-- Claim C9 (amended): the command history is appended (with FIFO
eviction) once for each candidate that passes all three gates, in
candidate order; a call whose decision is Rejected or Conversational
leaves the history unchanged, but an Executable decision may append more
than one entry - one per executable candidate, including candidates other
than the decided one. -/
theorem history_appended_only_on_commit (cfg : Option DMCfg)
    (ctx : AnalysisContext) (et : String) (hist : List CommandType)
    (rnd : Nat → Nat × Nat) :
    (¬(ctx.context_type = "command" ∧ ctx.possible_commands ≠ []) →
      (make_decision cfg ctx et hist rnd).2 = hist) ∧
    (ctx.context_type = "command" → ctx.possible_commands ≠ [] →
      (make_decision cfg ctx et hist rnd).2 =
        List.foldl update_command_history hist
          (executed_commands ctx.possible_commands
            (process_commands cfg ctx et rnd
              ctx.possible_commands 0 hist).1)) ∧
    ((make_decision cfg ctx et hist rnd).1.should_execute = false →
      (make_decision cfg ctx et hist rnd).2 = hist) := by
  by_cases hc : (ctx.context_type == "command" &&
      !ctx.possible_commands.isEmpty) = true
  · have hc2 : ctx.context_type = "command" ∧ ctx.possible_commands ≠ [] := by
      rcases Bool.and_eq_true_iff.mp hc with ⟨hca, hcb⟩
      refine ⟨by simpa using hca, ?_⟩
      intro hnil
      rw [hnil] at hcb
      simp at hcb
    have hmk2 : (make_decision cfg ctx et hist rnd).2 =
        (process_commands cfg ctx et rnd ctx.possible_commands 0 hist).2 := by
      simp only [make_decision, hc, if_true]
    have hmk1 : (make_decision cfg ctx et hist rnd).1 =
        select_best_command_result
          (process_commands cfg ctx et rnd ctx.possible_commands 0 hist).1 := by
      simp only [make_decision, hc, if_true]
    refine ⟨fun hnot => absurd hc2 hnot, ?_, ?_⟩
    · intro _ _
      rw [hmk2]
      exact process_commands_hist cfg ctx et rnd ctx.possible_commands 0 hist
    · intro hse
      rw [hmk2, process_commands_hist cfg ctx et rnd
        ctx.possible_commands 0 hist]
      rw [hmk1] at hse
      have hall : ∀ r ∈ (process_commands cfg ctx et rnd
          ctx.possible_commands 0 hist).1, r.should_execute = false := by
        intro r hr
        by_contra hne
        have hrT : r.should_execute = true := by
          revert hne
          cases r.should_execute <;> simp
        have hmemf : r ∈ ((process_commands cfg ctx et rnd
            ctx.possible_commands 0 hist).1).filter
              (fun x => x.should_execute) :=
          List.mem_filter.mpr ⟨hr, hrT⟩
        rcases hf : ((process_commands cfg ctx et rnd
            ctx.possible_commands 0 hist).1).filter
              (fun x => x.should_execute) with _ | ⟨e, es⟩
        · rw [hf] at hmemf
          exact absurd hmemf (List.not_mem_nil r)
        · rw [select_best_of_exec _ e es hf] at hse
          simp at hse
      have hex : executed_commands ctx.possible_commands
          (process_commands cfg ctx et rnd
            ctx.possible_commands 0 hist).1 = [] := by
        unfold executed_commands
        rw [List.map_eq_nil_iff, List.filter_eq_nil_iff]
        intro p hp
        have hpr := (List.of_mem_zip hp).2
        simp [hall p.2 hpr]
      rw [hex]
      rfl
  · have hmk2 : (make_decision cfg ctx et hist rnd).2 = hist := by
      simp only [make_decision, hc, Bool.false_eq_true, if_false]
    refine ⟨fun _ => hmk2, ?_, fun _ => hmk2⟩
    intro h1 h2
    exfalso
    apply hc
    rw [h1]
    rcases hpcs : ctx.possible_commands with _ | ⟨a, l⟩
    · exact absurd hpcs h2
    · rfl

/-- Claim C9 witness: a Conversational (chat) call leaves the command
history unchanged. -/
theorem history_appended_only_on_commit_witness :
    ¬((ctxOf "你好" "chat" []).context_type = "command" ∧
      (ctxOf "你好" "chat" []).possible_commands ≠ []) ∧
    (make_decision (some dmCfgDefault) (ctxOf "你好" "chat" []) "平静"
      [CommandType.come] rnd0).2 = [CommandType.come] :=
  ⟨by decide,
   (history_appended_only_on_commit (some dmCfgDefault)
     (ctxOf "你好" "chat" []) "平静" [CommandType.come] rnd0).1 (by decide)⟩

/-! ### Claim C2 -/

/-- Python max never returns less than the first entry. -/
theorem pickMax_snd_ge (rest : List (String × ℚ)) :
    ∀ init : String × ℚ, init.2 ≤ (pickMax init rest).2 := by
  induction rest with
  | nil => intro init; exact le_refl _
  | cons p l ih =>
    intro init
    simp only [pickMax, List.foldl_cons]
    by_cases hcc : p.2 > init.2
    · rw [if_pos hcc]
      exact le_trans (le_of_lt hcc) (ih p)
    · rw [if_neg hcc]
      exact ih init

/-- Claim C2, counterexample: a command-intent text whose tokens carry
five verb tags scores 0.6 + 5 x 0.1 = 1.1, and _analyze_context_type
returns that winning score as the confidence without any cap - the
produced intent confidence exceeds 1. -/
theorem intent_confidence_exceeds_one :
    (analyze_context_type "快跑快跑快跑快跑快跑"
      ["快跑", "快跑", "快跑", "快跑", "快跑"] ["v", "v", "v", "v", "v"] []
      [CommandType.run]).2 = 11/10 ∧
    ¬((analyze_context_type "快跑快跑快跑快跑快跑"
      ["快跑", "快跑", "快跑", "快跑", "快跑"] ["v", "v", "v", "v", "v"] []
      [CommandType.run]).2 ≤ 1) := by
  have hreg : regexSearchThen ["请", "麻烦", "帮忙"] ["好吗", "可以吗"]
      "快跑快跑快跑快跑快跑" = false := by decide
  have hq1 : strContains "快跑快跑快跑快跑快跑" "？" = false := by decide
  have hq2 : strContains "快跑快跑快跑快跑快跑" "?" = false := by decide
  have hcv : (["v", "v", "v", "v", "v"] : List String).countP
      (fun p => p == "v") = 5 := by decide
  have hcy : (["v", "v", "v", "v", "v"] : List String).countP
      (fun p => p == "y") = 0 := by decide
  have h : (analyze_context_type "快跑快跑快跑快跑快跑"
      ["快跑", "快跑", "快跑", "快跑", "快跑"] ["v", "v", "v", "v", "v"] []
      [CommandType.run]).2 = 11/10 := by
    unfold analyze_context_type
    rw [hreg, hq1, hq2, hcv, hcy]
    norm_num [pickMax, question_words, greeting_words]
  exact ⟨h, by rw [h]; norm_num⟩

/-- Claim C2 (amended): the intent confidence produced by
_analyze_context_type is nonnegative but is not capped at 1.0 (it can
exceed 1, as the counterexample shows); the safety score produced by
_check_command_safety always lies in [0, 1]. -/
theorem intent_confidence_nonneg_and_safety_score_bounds :
    (∀ (text : String) (words pos_tags keywords : List String)
        (pcs : List CommandType),
      0 ≤ (analyze_context_type text words pos_tags keywords pcs).2) ∧
    (∀ (cfg : Option DMCfg) (c : CommandType) (ctx : AnalysisContext),
      0 ≤ (check_command_safety cfg c ctx).score ∧
        (check_command_safety cfg c ctx).score ≤ 1) := by
  constructor
  · intro text words pos_tags keywords pcs
    unfold analyze_context_type
    refine le_trans ?_ (pickMax_snd_ge _ _)
    have h1 : (0:ℚ) ≤ (if !pcs.isEmpty then (0.6:ℚ) else 0) := by
      split <;> norm_num
    have h2 : (0:ℚ) ≤ (pos_tags.countP (fun p => p == "v") : ℚ) * 0.1 := by
      positivity
    have h3 : (0:ℚ) ≤ (if regexSearchThen ["请", "麻烦", "帮忙"]
        ["好吗", "可以吗"] text then (0.3:ℚ) else 0) := by
      split <;> norm_num
    exact add_nonneg (add_nonneg h1 h2) h3
  · intro cfg c ctx
    have hbound : ∀ (c1 : DMCfg) (scene : Scene),
        c1.safety.required_checks ≠ [] →
        0 ≤ safety_score_of c1 scene ∧ safety_score_of c1 scene ≤ 1 := by
      intro c1 scene hnil
      have hlen : 0 < (c1.safety.required_checks.length : ℚ) := by
        exact_mod_cast List.length_pos.mpr hnil
      unfold safety_score_of
      constructor
      · apply div_nonneg _ (le_of_lt hlen)
        exact_mod_cast Nat.zero_le _
      · rw [div_le_one hlen]
        exact_mod_cast List.countP_le_length _
    rcases cfg with _ | c1
    · cases h1 : needs_safety_check c
      · norm_num [check_command_safety, h1]
      · cases h2 : ctx.is_safe.getD true
        · norm_num [check_command_safety, h1, h2]
        · cases h3 : ((danger_keywords_of none).filter
              (fun w => strContains ctx.original_text w)).isEmpty
          · norm_num [check_command_safety, h1, h2, h3]
          · have hrest : ∀ (hx4 : ((ctx.scene.getD
                ({} : Scene)).has_obstacles.getD false &&
                !((ctx.scene.getD ({} : Scene)).obstacles.getD
                  []).isEmpty) = false),
                0 ≤ (check_command_safety none c ctx).score ∧
                  (check_command_safety none c ctx).score ≤ 1 := by
              intro hx4
              by_cases h5 : ((ctx.scene.getD ({} : Scene)).area.getD "") ∈
                  restricted_areas_of none
              · norm_num [check_command_safety, h1, h2, h3, hx4, h5]
              · cases hsp : (ctx.scene.getD ({} : Scene)).speed
                · norm_num [check_command_safety, h1, h2, h3, hx4, h5, hsp]
                · norm_num [check_command_safety, h1, h2, h3, hx4, h5, hsp]
            cases h4a : (ctx.scene.getD ({} : Scene)).has_obstacles.getD false
            · exact hrest (by rw [h4a]; rfl)
            · cases h4b : ((ctx.scene.getD ({} : Scene)).obstacles.getD
                  []).isEmpty
              · norm_num [check_command_safety, h1, h2, h3, h4a, h4b]
              · exact hrest (by rw [h4a, h4b]; rfl)
    · cases h1 : needs_safety_check c
      · norm_num [check_command_safety, h1]
      · cases h2 : ctx.is_safe.getD true
        · norm_num [check_command_safety, h1, h2]
        · cases h3 : ((danger_keywords_of (some c1)).filter
              (fun w => strContains ctx.original_text w)).isEmpty
          · norm_num [check_command_safety, h1, h2, h3]
          · have hrest : ∀ (hx4 : ((ctx.scene.getD
                ({} : Scene)).has_obstacles.getD false &&
                !((ctx.scene.getD ({} : Scene)).obstacles.getD
                  []).isEmpty) = false),
                0 ≤ (check_command_safety (some c1) c ctx).score ∧
                  (check_command_safety (some c1) c ctx).score ≤ 1 := by
              intro hx4
              by_cases h5 : ((ctx.scene.getD ({} : Scene)).area.getD "") ∈
                  restricted_areas_of (some c1)
              · norm_num [check_command_safety, h1, h2, h3, hx4, h5]
              · cases hsp : (ctx.scene.getD ({} : Scene)).speed with
                | none =>
                  cases h7 : c1.safety.required_checks.isEmpty
                  · have hnil : c1.safety.required_checks ≠ [] := by
                      intro hn
                      rw [hn] at h7
                      simp at h7
                    have hsc : (check_command_safety (some c1) c ctx).score =
                        safety_score_of c1 (ctx.scene.getD ({} : Scene)) := by
                      norm_num [check_command_safety, h1, h2, h3, hx4, h5,
                        hsp, h7]
                    rw [hsc]
                    exact hbound c1 (ctx.scene.getD ({} : Scene)) hnil
                  · norm_num [check_command_safety, h1, h2, h3, hx4, h5, hsp,
                      h7]
                | some v =>
                  by_cases hv : v > c1.safety.max_speed
                  · norm_num [check_command_safety, h1, h2, h3, hx4, h5, hsp,
                      hv]
                  · cases h7 : c1.safety.required_checks.isEmpty
                    · have hnil : c1.safety.required_checks ≠ [] := by
                        intro hn
                        rw [hn] at h7
                        simp at h7
                      have hsc : (check_command_safety (some c1) c ctx).score =
                          safety_score_of c1 (ctx.scene.getD ({} : Scene)) := by
                        norm_num [check_command_safety, h1, h2, h3, hx4, h5,
                          hsp, hv, h7]
                      rw [hsc]
                      exact hbound c1 (ctx.scene.getD ({} : Scene)) hnil
                    · norm_num [check_command_safety, h1, h2, h3, hx4, h5,
                        hsp, hv, h7]
            cases h4a : (ctx.scene.getD ({} : Scene)).has_obstacles.getD false
            · exact hrest (by rw [h4a]; rfl)
            · cases h4b : ((ctx.scene.getD ({} : Scene)).obstacles.getD
                  []).isEmpty
              · norm_num [check_command_safety, h1, h2, h3, h4a, h4b]
              · exact hrest (by rw [h4a, h4b]; rfl)

/-! ### Claim C5 -/

/-- Emotion configuration with default ranges and a configured
pitch_range (as the configuration contract provides). -/
def emoCfgPitch : EmotionCfg :=
  { triggers := [], pitch_range := some (0.9, 1.2) }

/-- Base parameter set whose pitch lies outside the configured
pitch_range. -/
def paramsPitchHigh : EmotionParams :=
  { speech_speed := 1, volume := 1, pitch := 2, expression := "calm",
    keywords := [] }

/-- Claim C5, counterexample: _adjust_params clamps speech_speed and
volume but never touches pitch_range; a base pitch of 2 at confidence 1
is returned as 2, outside the configured [0.9, 1.2]. -/
theorem adjusted_pitch_escapes_configured_range :
    emoCfgPitch.pitch_range = some (0.9, 1.2) ∧
    (adjust_params (some emoCfgPitch) paramsPitchHigh
      (ctxOf "你好" "chat" []) 1).pitch = 2 ∧
    ¬((adjust_params (some emoCfgPitch) paramsPitchHigh
      (ctxOf "你好" "chat" []) 1).pitch ≤ (1.2 : ℚ)) := by
  have h : (adjust_params (some emoCfgPitch) paramsPitchHigh
      (ctxOf "你好" "chat" []) 1).pitch = 2 := by
    norm_num [adjust_params, paramsPitchHigh, ctxOf]
    rw [if_neg (by decide : ¬("chat" = "command"))]
  exact ⟨rfl, h, by rw [h]; norm_num⟩

/-- Claim C5 (amended): the speech_speed and volume returned by
_adjust_params lie within their configured ranges (whenever the loaded
range is well-formed), but the pitch is only confidence-blended toward
1.0 and is never clamped into pitch_range. -/
theorem adjusted_speed_volume_within_configured_ranges
    (c : EmotionCfg) (params : EmotionParams) (ctx : AnalysisContext)
    (conf : ℚ)
    (hs : (c.speech_speed_range.getD (0.8, 1.3)).1 ≤
      (c.speech_speed_range.getD (0.8, 1.3)).2)
    (hv : (c.volume_range.getD (0.8, 1.2)).1 ≤
      (c.volume_range.getD (0.8, 1.2)).2) :
    (c.speech_speed_range.getD (0.8, 1.3)).1 ≤
      (adjust_params (some c) params ctx conf).speech_speed ∧
    (adjust_params (some c) params ctx conf).speech_speed ≤
      (c.speech_speed_range.getD (0.8, 1.3)).2 ∧
    (c.volume_range.getD (0.8, 1.2)).1 ≤
      (adjust_params (some c) params ctx conf).volume ∧
    (adjust_params (some c) params ctx conf).volume ≤
      (c.volume_range.getD (0.8, 1.2)).2 := by
  unfold adjust_params
  exact ⟨le_max_left _ _, max_le hs (min_le_left _ _),
    le_max_left _ _, max_le hv (min_le_left _ _)⟩

/-- Emotion configuration with no explicit ranges (the source defaults
apply). -/
def emoCfgPlain : EmotionCfg := { triggers := [] }

/-- Claim C5 witness: the clamping bounds at HAPPY base parameters and
full confidence under the default ranges. -/
theorem adjusted_speed_volume_within_ranges_witness :
    (emoCfgPlain.speech_speed_range.getD (0.8, 1.3)).1 ≤
      (emoCfgPlain.speech_speed_range.getD (0.8, 1.3)).2 ∧
    (emoCfgPlain.speech_speed_range.getD (0.8, 1.3)).1 ≤
      (adjust_params (some emoCfgPlain) (get_emotion_params .happy)
        (ctxOf "你好" "chat" []) 1).speech_speed ∧
    (adjust_params (some emoCfgPlain) (get_emotion_params .happy)
      (ctxOf "你好" "chat" []) 1).speech_speed ≤
      (emoCfgPlain.speech_speed_range.getD (0.8, 1.3)).2 :=
  ⟨by norm_num [emoCfgPlain],
   (adjusted_speed_volume_within_configured_ranges emoCfgPlain
     (get_emotion_params .happy) (ctxOf "你好" "chat" []) 1
     (by norm_num [emoCfgPlain]) (by norm_num [emoCfgPlain])).1,
   (adjusted_speed_volume_within_configured_ranges emoCfgPlain
     (get_emotion_params .happy) (ctxOf "你好" "chat" []) 1
     (by norm_num [emoCfgPlain]) (by norm_num [emoCfgPlain])).2.1⟩
